import Mathlib

/-!
Shallow embedding of the ChroniCompanion health-signal aggregation pipeline:
the journal-entry data model (src/backend/models.py), the statistics and
pattern detection of the export service (src/backend/services/export_service.py),
the insight gateway (src/backend/services/openai_service.py), the entry routes
(src/backend/api/routes.py), and the chart aggregation (src/backend/main.py).
Optional integers model nullable metric columns; Rat models Python float
arithmetic on the small integer data involved (the float literals 0.3 and 0.4
are embedded as the rationals they denote); external calls and JSON parsing
are embedded as explicit outcome values, so a raised exception that the source
catches corresponds to a failure outcome and never to partiality.
-/

namespace Chroni

/-- Embeds the stored row / serialized dict view of a journal entry
(class JournalEntry, src/backend/models.py lines 10-46, as consumed through
dict access in the services). An absent key or SQL NULL is `none`. Field
defaults here are only a convenience for writing concrete test rows; the
Pydantic creation defaults are modelled separately by `JournalEntryBase`. -/
structure Entry where
  entry_type : String := "morning"
  date : String := ""
  timestamp : Nat := 0
  mood_overall : Option Int := none
  energy_level : Option Int := none
  anxiety_level : Option Int := none
  pain_level : Option Int := none
  fatigue_level : Option Int := none
  sleep_quality : Option String := none
  morning_hopes : Option String := none
  evening_gratitude : Option String := none
  additional_notes : Option String := none
deriving DecidableEq

/-- Embeds JournalEntryBase (src/backend/models.py lines 49-64), the Pydantic
model validating entry creation. The structure defaults are exactly the
Pydantic field defaults: every optional field defaults to None except
pain_level and fatigue_level, whose declared default is 0. -/
structure JournalEntryBase where
  entry_type : String
  date : String
  morning_feeling : Option String := none
  morning_hopes : Option String := none
  morning_symptoms : Option String := none
  evening_day_review : Option String := none
  evening_gratitude : Option String := none
  evening_symptoms : Option String := none
  mood_overall : Option Int := none
  energy_level : Option Int := none
  anxiety_level : Option Int := none
  pain_level : Option Int := some 0
  fatigue_level : Option Int := some 0
  sleep_quality : Option String := none
  additional_notes : Option String := none
deriving DecidableEq

/-- Embeds the comprehension pattern
[e.get(k) for e in entries if e.get(k) is not None]
used throughout the services to collect the present values of one metric. -/
def present_values (metric : Entry → Option Int) (entries : List Entry) : List Int :=
  entries.filterMap metric

/-- Embeds the guarded mean pattern
sum(values) / len(values) if values else None
shared by export_service._calculate_statistics, routes.get_entries_summary and
main.get_chart_data. -/
def avgOrNone (vals : List Int) : Option Rat :=
  if vals.isEmpty then none
  else some ((vals.map (fun v : Int => (v : Rat))).sum / (vals.length : Rat))

/-- Written from the words of the spec (sections 4.2 and 8): the average is the
arithmetic mean, sum of present values divided by the count of present values,
and an empty sample set yields an explicit undefined marker, never 0. Used to
compare the source computation against the specified one. -/
def spec_average (vals : List Int) : Option Rat :=
  if vals = [] then none
  else some ((vals.map (fun v : Int => (v : Rat))).sum / (vals.length : Rat))

/-- Embeds the range computation of export_service._calculate_statistics:
for a nonempty value list the source formats the pair min(values), max(values)
as the string "min-max"; the pair itself is modelled, an empty list yields
None exactly as in the source. -/
def statRange (vals : List Int) : Option (Int × Int) :=
  match vals with
  | [] => none
  | v :: vs => some (vs.foldl min v, vs.foldl max v)

/-- Embeds the dict returned by export_service._calculate_statistics
(lines 271-320). -/
structure Statistics where
  avg_mood : Option Rat
  mood_range : Option (Int × Int)
  avg_energy : Option Rat
  energy_range : Option (Int × Int)
  avg_pain : Option Rat
  pain_range : Option (Int × Int)
  avg_anxiety : Option Rat
  anxiety_range : Option (Int × Int)
  avg_fatigue : Option Rat
  fatigue_range : Option (Int × Int)
deriving DecidableEq

/-- Embeds ExportService._calculate_statistics
(src/backend/services/export_service.py lines 271-320): per metric, collect
values that are not None; average and range when the list is nonempty,
None markers otherwise. -/
def calculate_statistics (entries : List Entry) : Statistics :=
  let mood_values := present_values Entry.mood_overall entries
  let energy_values := present_values Entry.energy_level entries
  let pain_values := present_values Entry.pain_level entries
  let anxiety_values := present_values Entry.anxiety_level entries
  let fatigue_values := present_values Entry.fatigue_level entries
  { avg_mood := avgOrNone mood_values
    mood_range := statRange mood_values
    avg_energy := avgOrNone energy_values
    energy_range := statRange energy_values
    avg_pain := avgOrNone pain_values
    pain_range := statRange pain_values
    avg_anxiety := avgOrNone anxiety_values
    anxiety_range := statRange anxiety_values
    avg_fatigue := avgOrNone fatigue_values
    fatigue_range := statRange fatigue_values }

/-- Embeds the Python truthiness test if e.get(key) on an optional integer:
false for an absent key and for a stored 0, true for any other integer. -/
def truthyInt : Option Int → Bool
  | none => false
  | some n => decide (n ≠ 0)

/-- Embeds the value collection of OpenAIService._build_weekly_context
(src/backend/services/openai_service.py line 195): the comprehension
[e.get(key) for e in entries_data if e.get(key)] keeps a value only when it is
truthy, so a reported 0 is dropped together with missing values. -/
def weekly_mood_values (entries_data : List Entry) : List Int :=
  entries_data.filterMap (fun e => if truthyInt e.mood_overall then e.mood_overall else none)

/-- Embeds line 196 of openai_service.py, as `weekly_mood_values`. -/
def weekly_energy_values (entries_data : List Entry) : List Int :=
  entries_data.filterMap (fun e => if truthyInt e.energy_level then e.energy_level else none)

/-- Embeds line 197 of openai_service.py, as `weekly_mood_values`. -/
def weekly_pain_values (entries_data : List Entry) : List Int :=
  entries_data.filterMap (fun e => if truthyInt e.pain_level then e.pain_level else none)

/-- Embeds the average-mood computation of OpenAIService._build_weekly_context
(lines 199-201): the mean is computed and reported only when the collected
value list is nonempty. String formatting of the context line is elided; the
value that would be formatted is modelled exactly. -/
def weekly_avg_mood (entries_data : List Entry) : Option Rat :=
  avgOrNone (weekly_mood_values entries_data)

/-- Embeds lines 203-205 of openai_service.py, as `weekly_avg_mood`. -/
def weekly_avg_energy (entries_data : List Entry) : Option Rat :=
  avgOrNone (weekly_energy_values entries_data)

/-- Embeds lines 207-209 of openai_service.py, as `weekly_avg_mood`. -/
def weekly_avg_pain (entries_data : List Entry) : Option Rat :=
  avgOrNone (weekly_pain_values entries_data)

/-- Embeds the Python slice values[-3:]. -/
def lastThree (vals : List Int) : List Int :=
  vals.drop (vals.length - 3)

/-- Embeds the Python slice entries_data[-n:] used to select recent entries. -/
def lastN (n : Nat) (l : List Entry) : List Entry :=
  l.drop (l.length - n)

/-- Embeds the Python repr of a list of integers, used in the recent-values
suffix of the trend lines. -/
def pyIntList (vals : List Int) : String :=
  "[" ++ String.intercalate ", " (vals.map toString) ++ "]"

/-- Embeds the trend expression of OpenAIService._build_pattern_context
(src/backend/services/openai_service.py lines 443-453):
"increasing" if values[-1] > values[0] else "decreasing" if
values[-1] < values[0] else "stable". The expression is evaluated only under
the guard if values:, so an empty value list yields no trend at all,
modelled as none. -/
def patternTrend (vals : List Int) : Option String :=
  match vals with
  | [] => none
  | v :: vs =>
    some (if vs.getLastD v > v then "increasing"
          else if vs.getLastD v < v then "decreasing" else "stable")

/-- Embeds OpenAIService._build_pattern_context (lines 430-455); the joined
context string is built from the same parts list as the source. -/
def build_pattern_context (entries_data : List Entry) : String :=
  if entries_data.isEmpty then "No recent entries available for analysis."
  else
    let mood_values := present_values Entry.mood_overall entries_data
    let energy_values := present_values Entry.energy_level entries_data
    let pain_values := present_values Entry.pain_level entries_data
    let parts := ["Analyzing " ++ toString entries_data.length ++ " recent entries:"]
    let parts := match patternTrend mood_values with
      | some t => parts ++
          ["Mood trend: " ++ t ++ " (recent: " ++ pyIntList (lastThree mood_values) ++ ")"]
      | none => parts
    let parts := match patternTrend energy_values with
      | some t => parts ++
          ["Energy trend: " ++ t ++ " (recent: " ++ pyIntList (lastThree energy_values) ++ ")"]
      | none => parts
    let parts := match patternTrend pain_values with
      | some t => parts ++
          ["Pain trend: " ++ t ++ " (recent: " ++ pyIntList (lastThree pain_values) ++ ")"]
      | none => parts
    String.intercalate "\n" parts

/-- Embeds the Python comparison value <= bound where value came from
dict.get on a metric key. Every caller of the services builds its entry dicts
with every metric key present (src/backend/main.py lines 203-212, 241-248,
278-286, 318-329, 369-392), so dict.get returns the stored value — None when
the column is NULL, the declared default never applying — and comparing None
with an integer raises TypeError in Python 3. -/
def pyLe (v : Option Int) (bound : Int) : Except String Bool :=
  match v with
  | some n => .ok (decide (n ≤ bound))
  | none => .error "TypeError"

/-- Embeds value >= bound on a dict-get metric value, as `pyLe`. -/
def pyGe (v : Option Int) (bound : Int) : Except String Bool :=
  match v with
  | some n => .ok (decide (bound ≤ n))
  | none => .error "TypeError"

/-- Embeds the counting comprehensions of the services: the entries matching
a test, evaluated left to right, with the first raising comparison aborting
the whole count. -/
def countMatches (test : Entry → Except String Bool) : List Entry → Except String Nat
  | [] => .ok 0
  | e :: es => do
    let b ← test e
    let n ← countMatches test es
    pure (if b then n + 1 else n)

/-- Embeds OpenAIService._build_crisis_context (lines 457-479). The three
counting comprehensions compare e.get of mood, pain and anxiety against
integer bounds, so an entry whose compared metric is None makes the builder
raise TypeError, modelled as the error value. -/
def build_crisis_context (entries_data : List Entry) : Except String String :=
  if entries_data.isEmpty then .ok "No recent entries available for analysis."
  else do
    let n := entries_data.length
    let low_mood_count ← countMatches (fun e => pyLe e.mood_overall 3) entries_data
    let high_pain_count ← countMatches (fun e => pyGe e.pain_level 7) entries_data
    let high_anxiety_count ← countMatches (fun e => pyGe e.anxiety_level 7) entries_data
    let parts := ["Analyzing " ++ toString n ++ " recent entries for concerning patterns:",
      "Low mood entries (≤3): " ++ toString low_mood_count ++ "/" ++ toString n,
      "High pain entries (≥7): " ++ toString high_pain_count ++ "/" ++ toString n,
      "High anxiety entries (≥7): " ++ toString high_anxiety_count ++ "/" ++ toString n]
    let parts := parts ++
      ((lastN 2 entries_data).filterMap Entry.additional_notes).map
        (fun s => "Recent note: " ++ s.take 150 ++ "...")
    pure (String.intercalate "\n" parts)

/-- Embeds the gateway object state of OpenAIService (client omitted: it is an
opaque network handle). -/
structure OpenAIService where
  model : Option String
  enabled : Bool
deriving DecidableEq

/-- Embeds OpenAIService.__init__ (src/backend/services/openai_service.py
lines 9-19): the credential read from the environment decides the enabled
flag and the model name at construction. -/
def initService (api_key : Option String) : OpenAIService :=
  match api_key with
  | some _ => { model := some "gpt-3.5-turbo", enabled := true }
  | none => { model := none, enabled := false }

/-- Models the observable outcome of one external completion call whose reply
is consumed as plain text: either a response body or a raised transport or
API exception, which the source catches. -/
inductive TextOutcome where
  | success (body : String)
  | failure
deriving DecidableEq

/-- Models the observable outcome of one external completion call whose reply
is decoded as JSON: a response body together with the result of
json.loads (none when the body is not parseable as JSON, or does not have the
expected shape), or a raised transport or API exception. -/
inductive JsonOutcome (α : Type) where
  | success (body : String) (parsed : Option α)
  | failure
deriving DecidableEq

/-- Embeds OpenAIService.generate_entry_summary (lines 21-59): disabled
service returns None; a successful call returns the stripped reply text; any
caught exception returns None. -/
def generate_entry_summary (svc : OpenAIService) (entry_data : Entry)
    (call : TextOutcome) : Option String :=
  if svc.enabled = false then none
  else
    match call with
    | .success body => some body.trim
    | .failure => none

/-- Embeds OpenAIService.generate_insights_and_encouragement (lines 61-97). -/
def generate_insights_and_encouragement (svc : OpenAIService) (entry_data : Entry)
    (call : TextOutcome) : Option String :=
  if svc.enabled = false then none
  else
    match call with
    | .success body => some body.trim
    | .failure => none

/-- Embeds OpenAIService.generate_weekly_reflection (lines 99-139): disabled
service or an empty entry list returns None. -/
def generate_weekly_reflection (svc : OpenAIService) (entries_data : List Entry)
    (call : TextOutcome) : Option String :=
  if svc.enabled = false then none
  else if entries_data.isEmpty then none
  else
    match call with
    | .success body => some body.trim
    | .failure => none

/-- Embeds the JSON artifact of generate_predictive_insights (lines 243-250
of the prompt schema and 263-272 of the parse). -/
structure PredictivePayload where
  prediction : String
  confidence : String
  suggestions : List String
  warning_signs : List String
  positive_trends : List String
deriving DecidableEq

/-- Embeds OpenAIService.generate_predictive_insights (lines 225-279):
disabled service returns None; a parse failure falls back to a payload
carrying the raw stripped reply; a caught exception returns None. -/
def generate_predictive_insights (svc : OpenAIService) (entries_data : List Entry)
    (call : JsonOutcome PredictivePayload) : Option PredictivePayload :=
  if svc.enabled = false then none
  else
    let recent_entries := if 7 ≤ entries_data.length then lastN 7 entries_data else entries_data
    let _context := build_pattern_context recent_entries
    match call with
    | .success body parsed =>
      match parsed with
      | some j => some j
      | none => some
          { prediction := body.trim
            confidence := "medium"
            suggestions := []
            warning_signs := []
            positive_trends := [] }
    | .failure => none

/-- Embeds the JSON artifact of generate_coping_strategies; every field is
optional because the parse fallback constructs a partial dict. -/
structure CopingPayload where
  immediate_strategies : Option (List String) := none
  energy_management : Option (List String) := none
  pain_relief : Option (List String) := none
  mood_support : Option (List String) := none
  self_care : Option (List String) := none
  when_to_seek_help : Option String := none
deriving DecidableEq

/-- Embeds the parse-failure fallback of generate_coping_strategies
(line 326): a dict holding only the immediate_strategies key. -/
def copingFallback : CopingPayload :=
  { immediate_strategies := some ["Take gentle, deep breaths",
      "Rest in a comfortable position", "Reach out to a trusted friend"] }

/-- Embeds OpenAIService.generate_coping_strategies (lines 281-333); the
current_symptoms dict only feeds the prompt text. -/
def generate_coping_strategies (svc : OpenAIService)
    (current_symptoms : List (String × Option Int)) (entries_data : List Entry)
    (call : JsonOutcome CopingPayload) : Option CopingPayload :=
  if svc.enabled = false then none
  else
    match call with
    | .success _ parsed =>
      match parsed with
      | some j => some j
      | none => some copingFallback
    | .failure => none

/-- Embeds the crisis-check JSON artifact whose full schema is enumerated in
the prompt of detect_crisis_patterns (lines 358-365): risk_level,
concerning_patterns, supportive_message, gentle_suggestions, resources,
check_in_frequency. Every field is optional because the parse fallback
constructs a partial dict. -/
structure CrisisPayload where
  risk_level : Option String := none
  concerning_patterns : Option (List String) := none
  supportive_message : Option String := none
  gentle_suggestions : Option (List String) := none
  resources : Option (List String) := none
  check_in_frequency : Option String := none
deriving DecidableEq

/-- Embeds the parse-failure fallback of detect_crisis_patterns (line 380):
a dict holding only risk_level, concerning_patterns and supportive_message. -/
def crisisFallback : CrisisPayload :=
  { risk_level := some "none"
    concerning_patterns := some []
    supportive_message := some "You\x27re doing great by tracking your health." }

/-- Embeds OpenAIService.detect_crisis_patterns (lines 335-384): disabled
service returns None; the crisis context is built inside the try block, so a
TypeError raised there is caught and yields None before any external call; a
parse failure of a received response returns the fixed partial default; a
caught transport or API exception returns None. -/
def detect_crisis_patterns (svc : OpenAIService) (entries_data : List Entry)
    (call : JsonOutcome CrisisPayload) : Option CrisisPayload :=
  if svc.enabled = false then none
  else
    let recent_entries := if 5 ≤ entries_data.length then lastN 5 entries_data else entries_data
    match build_crisis_context recent_entries with
    | .error _ => none
    | .ok _context =>
      match call with
      | .success _ parsed =>
        match parsed with
        | some j => some j
        | none => some crisisFallback
      | .failure => none

/-- Embeds the weekly-coaching JSON artifact; every field is optional because
the parse fallback constructs a partial dict. -/
structure CoachingPayload where
  weekly_summary : Option String := none
  achievements : Option (List String) := none
  areas_for_growth : Option (List String) := none
  next_week_focus : Option String := none
  specific_goals : Option (List String) := none
  motivational_message : Option String := none
  self_care_prescription : Option (List String) := none
deriving DecidableEq

/-- Embeds the parse-failure fallback of generate_weekly_coaching
(line 424). -/
def coachingFallback : CoachingPayload :=
  { weekly_summary := some "You\x27ve shown incredible strength this week."
    achievements := some ["Continued tracking your health"]
    motivational_message := some "Keep being gentle with yourself." }

/-- Embeds OpenAIService.generate_weekly_coaching (lines 386-428). -/
def generate_weekly_coaching (svc : OpenAIService) (entries_data : List Entry)
    (goals : Option (List String)) (call : JsonOutcome CoachingPayload) :
    Option CoachingPayload :=
  if svc.enabled = false then none
  else
    let _weekly := if 7 ≤ entries_data.length then lastN 7 entries_data else entries_data
    match call with
    | .success _ parsed =>
      match parsed with
      | some j => some j
      | none => some coachingFallback
    | .failure => none

/-- Lexicographic comparison of character lists, the order SQL and Python
apply to ISO YYYY-MM-DD date strings; defined by structural recursion so that
concrete comparisons evaluate. -/
def charListLe : List Char → List Char → Bool
  | [], _ => true
  | _ :: _, [] => false
  | a :: as, b :: bs => if a < b then true else if b < a then false else charListLe as bs

/-- Lexicographic order on strings, embedding the comparison the database
applies to the String(10) date column. -/
def strLe (a b : String) : Bool :=
  charListLe a.data b.data

/-- Transitivity of the lexicographic comparison. -/
theorem charListLe_trans : ∀ (a b c : List Char), charListLe a b = true →
    charListLe b c = true → charListLe a c = true
  | [], _, _, _, _ => rfl
  | _ :: _, [], _, hab, _ => by simp [charListLe] at hab
  | _ :: _, _ :: _, [], _, hbc => by simp [charListLe] at hbc
  | x :: xs, y :: ys, z :: zs, hab, hbc => by
    have ih := charListLe_trans xs ys zs
    simp only [charListLe] at hab hbc ⊢
    rcases lt_trichotomy x y with h1 | h1 | h1
    · rcases lt_trichotomy y z with h2 | h2 | h2
      · rw [if_pos (lt_trans h1 h2)]
      · rw [if_pos (h2 ▸ h1)]
      · rw [if_neg (lt_asymm h2), if_pos h2] at hbc
        exact absurd hbc (by simp)
    · subst h1
      rcases lt_trichotomy x z with h2 | h2 | h2
      · rw [if_pos h2]
      · subst h2
        rw [if_neg (lt_irrefl x), if_neg (lt_irrefl x)] at hab hbc ⊢
        exact ih hab hbc
      · rw [if_neg (lt_asymm h2), if_pos h2] at hbc
        exact absurd hbc (by simp)
    · rw [if_neg (lt_asymm h1), if_pos h1] at hab
      exact absurd hab (by simp)

/-- Transitivity of the string order. -/
theorem strLe_trans (a b c : String) (hab : strLe a b = true) (hbc : strLe b c = true) :
    strLe a c = true :=
  charListLe_trans a.data b.data c.data hab hbc

/-- Inserts an entry into a list kept in descending timestamp order; helper
for the embedding of the SQL clause ORDER BY timestamp DESC. -/
def insertTsDesc (e : Entry) : List Entry → List Entry
  | [] => [e]
  | x :: xs => if x.timestamp < e.timestamp then e :: x :: xs else x :: insertTsDesc e xs

/-- Embeds ORDER BY timestamp DESC of the entry queries. -/
def order_by_timestamp_desc (l : List Entry) : List Entry :=
  l.foldr insertTsDesc []

/-- Embeds routes.get_entries (src/backend/api/routes.py lines 34-66) over a
list model of the journal_entries table: the optional entry-type and the two
optional date bounds are each applied as an independent filter, the result is
ordered by timestamp descending and paged with offset and limit, and the call
answers with a success value; the error arm of the source only wraps database
exceptions, so a well-typed call never produces it. Date bounds compare the
ISO YYYY-MM-DD strings lexicographically, exactly as the SQL comparison on
the String(10) column does. -/
def get_entries (db : List Entry) (skip limit : Nat) (entry_type : Option String)
    (date_from date_to : Option String) : Except String (List Entry) :=
  let q := db
  let q := match entry_type with
    | some t => q.filter (fun e => decide (e.entry_type = t))
    | none => q
  let q := match date_from with
    | some d => q.filter (fun e => strLe d e.date)
    | none => q
  let q := match date_to with
    | some d => q.filter (fun e => strLe e.date d)
    | none => q
  Except.ok (((order_by_timestamp_desc q).drop skip).take limit)

/-- Embeds Python round(x, 1) on the small exact decimals that arise here:
scale by ten, round to the nearest integer, scale back. -/
def roundTo1 (a : Rat) : Rat :=
  ((round (10 * a) : Int) : Rat) / 10

/-- Embeds the reporting expression round(avg, 1) if avg else None of
routes.get_entries_summary (lines 163-165): Python truthiness makes both None
and an average of exactly 0.0 report as None. -/
def reported_average (a : Option Rat) : Option Rat :=
  match a with
  | none => none
  | some x => if x = 0 then none else some (roundTo1 x)

/-- Embeds the recent_averages object of the summary response. -/
structure RecentAverages where
  mood : Option Rat
  energy : Option Rat
  pain : Option Rat
deriving DecidableEq

/-- Embeds the response of routes.get_entries_summary. -/
structure SummaryResponse where
  total_entries : Nat
  morning_entries : Nat
  evening_entries : Nat
  recent_averages : RecentAverages
deriving DecidableEq

/-- Embeds the ten most recent entries selected by routes.get_entries_summary
(line 139): ORDER BY timestamp DESC LIMIT 10. -/
def recent_entries_of (db : List Entry) : List Entry :=
  (order_by_timestamp_desc db).take 10

/-- Embeds routes.get_entries_summary (src/backend/api/routes.py
lines 130-172): counts by entry type, then the mean of the values that are
not None over the ten most recent entries, reported through the truthiness
guard of `reported_average`. -/
def get_entries_summary (db : List Entry) : SummaryResponse :=
  { total_entries := db.length
    morning_entries := (db.filter (fun e => decide (e.entry_type = "morning"))).length
    evening_entries := (db.filter (fun e => decide (e.entry_type = "evening"))).length
    recent_averages :=
      { mood := reported_average
          (avgOrNone (present_values Entry.mood_overall (recent_entries_of db)))
        energy := reported_average
          (avgOrNone (present_values Entry.energy_level (recent_entries_of db)))
        pain := reported_average
          (avgOrNone (present_values Entry.pain_level (recent_entries_of db))) } }

/-- Embeds the count of the high-pain rule of
ExportService._identify_medical_patterns (line 351),
len([e for e in entries if e.get(pain, 0) >= 7]): the export caller
(src/backend/main.py lines 369-392) puts every metric key into the dicts, so
the dict-get default is dead and an entry whose pain level is None makes the
comparison raise TypeError. -/
def high_pain_count (entries : List Entry) : Except String Nat :=
  countMatches (fun e => pyGe e.pain_level 7) entries

/-- Embeds the count of the sleep rule (line 356); the membership test
None in [poor, very_poor] is total, so this count never raises. -/
def poor_sleep_count (entries : List Entry) : Nat :=
  (entries.filter (fun e =>
    decide (e.sleep_quality = some "poor" ∨ e.sleep_quality = some "very_poor"))).length

/-- Embeds the count of the low-energy rule (line 361), as
`high_pain_count`: a None energy level raises TypeError. -/
def low_energy_count (entries : List Entry) : Except String Nat :=
  countMatches (fun e => pyLe e.energy_level 3) entries

/-- Embeds the count of the anxiety rule (line 366), as
`high_pain_count`: a None anxiety level raises TypeError. -/
def high_anxiety_count (entries : List Entry) : Except String Nat :=
  countMatches (fun e => pyGe e.anxiety_level 7) entries

/-- The flag string of the high-pain rule (line 353), over its count and the
entry total. -/
def pain_flag (c n : Nat) : String :=
  "Frequent high pain levels (7+/10) in " ++ toString c ++
    " of " ++ toString n ++ " entries"

/-- The flag string of the sleep rule (line 358). -/
def sleep_flag (c n : Nat) : String :=
  "Persistent sleep difficulties in " ++ toString c ++
    " of " ++ toString n ++ " entries"

/-- The flag string of the low-energy rule (line 363). -/
def energy_flag (c n : Nat) : String :=
  "Frequently low energy levels (≤3/10) in " ++ toString c ++
    " of " ++ toString n ++ " entries"

/-- The flag string of the anxiety rule (line 368). -/
def anxiety_flag (c n : Nat) : String :=
  "Elevated anxiety levels (7+/10) in " ++ toString c ++
    " of " ++ toString n ++ " entries"

/-- The no-pattern marker appended when no rule fires (line 371). -/
def noPatternMarker : String :=
  "No significant concerning patterns identified in current data range"

/-- The flag-list construction of ExportService._identify_medical_patterns
(lines 352-372) once the four counts are known: each rule appends its flag
when its count strictly exceeds the corresponding fraction of the entry
total — the float literals 0.3 and 0.4 are embedded as the rationals 3/10
and 4/10, which agree with the float comparison against an integer count at
every list length — and an empty flag list is replaced by the single
no-pattern marker. The sequential appends of the source are modelled as the
concatenation of conditional singletons. -/
def identify_from_counts (hp ps le ha n : Nat) : List String :=
  let patterns :=
    (if (hp : Rat) > (n : Rat) * (3 / 10) then [pain_flag hp n] else []) ++
    (if (ps : Rat) > (n : Rat) * (4 / 10) then [sleep_flag ps n] else []) ++
    (if (le : Rat) > (n : Rat) * (3 / 10) then [energy_flag le n] else []) ++
    (if (ha : Rat) > (n : Rat) * (3 / 10) then [anxiety_flag ha n] else [])
  if patterns.isEmpty then [noPatternMarker] else patterns

/-- Embeds ExportService._identify_medical_patterns
(src/backend/services/export_service.py lines 346-373). The source counts and
appends rule by rule in the order pain, sleep, energy, anxiety; the raising
counts are sequenced here before the pure flag construction, which preserves
the observable result exactly: the function raises the same TypeError if and
only if some entry has a None pain, energy or anxiety level, and returns the
same flag list otherwise. -/
def identify_medical_patterns (entries : List Entry) : Except String (List String) := do
  let hp ← high_pain_count entries
  let le ← low_energy_count entries
  let ha ← high_anxiety_count entries
  pure (identify_from_counts hp (poor_sleep_count entries) le ha entries.length)

/-- The detector checked the collection and no rule fired: every raising
count evaluated without a TypeError and no count strictly exceeds its
threshold fraction. -/
def no_rule_fires (entries : List Entry) (hp le ha : Nat) : Prop :=
  high_pain_count entries = .ok hp ∧
  low_energy_count entries = .ok le ∧
  high_anxiety_count entries = .ok ha ∧
  ¬((hp : Rat) > (entries.length : Rat) * (3 / 10)) ∧
  ¬((poor_sleep_count entries : Rat) > (entries.length : Rat) * (4 / 10)) ∧
  ¬((le : Rat) > (entries.length : Rat) * (3 / 10)) ∧
  ¬((ha : Rat) > (entries.length : Rat) * (3 / 10))

/-- Inserts a string into a lexicographically sorted list; helper for the
embedding of sorted(daily_data.keys()). -/
def insertSortedStr (s : String) : List String → List String
  | [] => [s]
  | x :: xs => if strLe s x then s :: x :: xs else x :: insertSortedStr s xs

/-- Sorts strings ascending, embedding the Python sorted builtin. -/
def sortStrings (l : List String) : List String :=
  l.foldr insertSortedStr []

/-- Embeds labels = sorted(daily_data.keys()) of main.get_chart_data
(src/backend/main.py line 508): the distinct entry dates in ascending
order. -/
def chart_labels (entries : List Entry) : List String :=
  sortStrings (entries.map Entry.date).dedup

/-- Embeds the per-day value buckets of main.get_chart_data (lines 486-505):
for one date, the values of one metric that are not None, in entry order. -/
def day_values (metric : Entry → Option Int) (entries : List Entry) (d : String) : List Int :=
  (entries.filter (fun e => decide (e.date = d))).filterMap metric

/-- Embeds one dataset of main.get_chart_data (lines 511-516 for mood, the
other metrics are identical): for each label date in order, the daily average
sum(values) / len(values) if values else None. -/
def chart_series (metric : Entry → Option Int) (entries : List Entry) : List (Option Rat) :=
  (chart_labels entries).map (fun d => avgOrNone (day_values metric entries d))

/-- The guarded mean of the source agrees with the mean written from the
words of the spec. -/
theorem avgOrNone_eq_spec_average (vals : List Int) : avgOrNone vals = spec_average vals := by
  cases vals <;> rfl

/-- The range of the source is the None marker exactly on an empty value
list. -/
theorem statRange_eq_none_iff (vals : List Int) : statRange vals = none ↔ vals = [] := by
  cases vals <;> simp [statRange]

/-- A truthiness-guarded value collection drops exactly the zero values from
the present values. -/
theorem truthy_filterMap_eq_filter (f : Entry → Option Int) (l : List Entry) :
    l.filterMap (fun e => if truthyInt (f e) then f e else none) =
      (l.filterMap f).filter (fun v => decide (v ≠ 0)) := by
  have hfun : (fun e => if truthyInt (f e) then f e else none) =
      (fun e => (f e).filter (fun v => decide (v ≠ 0))) := by
    funext e
    cases hfe : f e with
    | none => rfl
    | some v =>
      by_cases hv : v = 0
      · simp [truthyInt, hv, Option.filter]
      · simp [truthyInt, hv, Option.filter]
  rw [hfun, ← List.filter_filterMap]

/-- Claim C2: for every entry collection, the per-metric statistics average
equals the arithmetic mean of the present values of that metric — sum of
present values divided by the count of present values — and when the
collection contains no present value for a metric, the average and the
min-max range for that metric are an explicit None marker, never 0. -/
theorem C2_statistics_average (entries : List Entry) :
    ((calculate_statistics entries).avg_mood =
        spec_average (present_values Entry.mood_overall entries) ∧
      ((calculate_statistics entries).mood_range = none ↔
        present_values Entry.mood_overall entries = [])) ∧
    ((calculate_statistics entries).avg_energy =
        spec_average (present_values Entry.energy_level entries) ∧
      ((calculate_statistics entries).energy_range = none ↔
        present_values Entry.energy_level entries = [])) ∧
    ((calculate_statistics entries).avg_pain =
        spec_average (present_values Entry.pain_level entries) ∧
      ((calculate_statistics entries).pain_range = none ↔
        present_values Entry.pain_level entries = [])) ∧
    ((calculate_statistics entries).avg_anxiety =
        spec_average (present_values Entry.anxiety_level entries) ∧
      ((calculate_statistics entries).anxiety_range = none ↔
        present_values Entry.anxiety_level entries = [])) ∧
    ((calculate_statistics entries).avg_fatigue =
        spec_average (present_values Entry.fatigue_level entries) ∧
      ((calculate_statistics entries).fatigue_range = none ↔
        present_values Entry.fatigue_level entries = [])) :=
  ⟨⟨avgOrNone_eq_spec_average _, statRange_eq_none_iff _⟩,
   ⟨avgOrNone_eq_spec_average _, statRange_eq_none_iff _⟩,
   ⟨avgOrNone_eq_spec_average _, statRange_eq_none_iff _⟩,
   ⟨avgOrNone_eq_spec_average _, statRange_eq_none_iff _⟩,
   ⟨avgOrNone_eq_spec_average _, statRange_eq_none_iff _⟩⟩

/-- Entry reporting a mood of exactly zero, instantiating claim C1. -/
def zeroMoodEntry : Entry :=
  { entry_type := "evening", date := "2024-01-01", mood_overall := some 0 }

/-- Claim C1 counterexample: an entry whose mood is reported as 0 contributes
nothing to the weekly-context average — the builder reports no average at all
instead of the average 0 the claim requires — and an entry created without a
pain or fatigue value is recorded with the value 0 by the creation model. -/
theorem C1_counterexample :
    weekly_avg_mood [zeroMoodEntry] = none ∧
    weekly_avg_mood [zeroMoodEntry] ≠ some 0 ∧
    ({ entry_type := "morning", date := "2024-01-02" } : JournalEntryBase).pain_level =
      some 0 ∧
    ({ entry_type := "morning", date := "2024-01-02" } : JournalEntryBase).fatigue_level =
      some 0 :=
  ⟨rfl, by decide, rfl, rfl⟩

/-- Claim C1 (amended): the statistics layer excludes exactly the absent
metric values, so a metric reported as 0 contributes 0 to its average and a
missing metric contributes nothing there; but the weekly context builder
additionally drops the values reported as 0, conflating them with missing
ones, and the stored data model defaults an absent pain or fatigue value at
creation to the recorded value 0 while absent mood, energy and anxiety stay
absent. -/
theorem C1_missing_vs_zero (entries : List Entry) (e : Entry) (et d : String) :
    weekly_mood_values entries =
      (present_values Entry.mood_overall entries).filter (fun v => decide (v ≠ 0)) ∧
    weekly_pain_values entries =
      (present_values Entry.pain_level entries).filter (fun v => decide (v ≠ 0)) ∧
    (calculate_statistics entries).avg_pain =
      spec_average (present_values Entry.pain_level entries) ∧
    present_values Entry.pain_level ({ e with pain_level := some 0 } :: entries) =
      0 :: present_values Entry.pain_level entries ∧
    present_values Entry.pain_level ({ e with pain_level := none } :: entries) =
      present_values Entry.pain_level entries ∧
    ({ entry_type := et, date := d } : JournalEntryBase).pain_level = some 0 ∧
    ({ entry_type := et, date := d } : JournalEntryBase).fatigue_level = some 0 ∧
    ({ entry_type := et, date := d } : JournalEntryBase).mood_overall = none := by
  refine ⟨truthy_filterMap_eq_filter _ _, truthy_filterMap_eq_filter _ _,
    avgOrNone_eq_spec_average _, ?_, ?_, rfl, rfl, rfl⟩
  · simp [present_values, List.filterMap_cons]
  · simp [present_values, List.filterMap_cons]

/-- Claim C3 counterexample: for the empty value sequence the source emits no
trend classification at all — the guarded trend line is skipped — rather than
the classification stable that the claim requires. -/
theorem C3_counterexample :
    patternTrend [] = none ∧ patternTrend [] ≠ some "stable" :=
  ⟨rfl, by decide⟩

/-- Claim C3 (amended): for every nonempty chronologically ordered sequence
of present metric values, the trend classification compares the last element
against the first: increasing if last is greater, decreasing if smaller,
stable if equal, so every single-element sequence is stable, [3,3,7] is
increasing and [7,4] is decreasing; for the empty sequence no trend is
produced at all (the context line is omitted), not the value stable. -/
theorem C3_trend_classification (v : Int) (vs : List Int) :
    (patternTrend (v :: vs) = some "increasing" ↔ v < vs.getLastD v) ∧
    (patternTrend (v :: vs) = some "decreasing" ↔ vs.getLastD v < v) ∧
    (patternTrend (v :: vs) = some "stable" ↔ vs.getLastD v = v) ∧
    patternTrend [] = none ∧
    patternTrend [v] = some "stable" ∧
    patternTrend [3, 3, 7] = some "increasing" ∧
    patternTrend [7, 4] = some "decreasing" := by
  have hs : patternTrend (v :: vs) =
      some (if vs.getLastD v > v then "increasing"
            else if vs.getLastD v < v then "decreasing" else "stable") := rfl
  refine ⟨?_, ?_, ?_, rfl, ?_, by decide, by decide⟩
  · rcases lt_trichotomy (vs.getLastD v) v with h | h | h
    · rw [hs, if_neg (by omega), if_pos h]
      simp only [Option.some.injEq]
      constructor
      · intro hc; exact absurd hc (by decide)
      · intro hc; omega
    · rw [hs, if_neg (by omega), if_neg (by omega)]
      simp only [Option.some.injEq]
      constructor
      · intro hc; exact absurd hc (by decide)
      · intro hc; omega
    · rw [hs, if_pos h]
      simp only [Option.some.injEq, true_iff]
      omega
  · rcases lt_trichotomy (vs.getLastD v) v with h | h | h
    · rw [hs, if_neg (by omega), if_pos h]
      simpa using h
    · rw [hs, if_neg (by omega), if_neg (by omega)]
      simp only [Option.some.injEq]
      constructor
      · intro hc; exact absurd hc (by decide)
      · intro hc; omega
    · rw [hs, if_pos h]
      simp only [Option.some.injEq]
      constructor
      · intro hc; exact absurd hc (by decide)
      · intro hc; omega
  · rcases lt_trichotomy (vs.getLastD v) v with h | h | h
    · rw [hs, if_neg (by omega), if_pos h]
      simp only [Option.some.injEq]
      constructor
      · intro hc; exact absurd hc (by decide)
      · intro hc; omega
    · rw [hs, if_neg (by omega), if_neg (by omega)]
      simpa using h
    · rw [hs, if_pos h]
      simp only [Option.some.injEq]
      constructor
      · intro hc; exact absurd hc (by decide)
      · intro hc; omega
  · show patternTrend [v] = some "stable"
    simp [patternTrend, List.getLastD, lt_irrefl]

/-- Gateway constructed with a configured credential, instantiating
claims C4 and C7. -/
def enabledService : OpenAIService :=
  initService (some "sk-test")

/-- Claim C4 counterexample: on a transport error the crisis check of an
enabled gateway resolves to a bare None, not to a default payload, and the
parse-failure default payload carries no gentle_suggestions, resources or
check_in_frequency fields, so it is not valid against the full six-field
crisis schema. -/
theorem C4_counterexample :
    detect_crisis_patterns enabledService [] JsonOutcome.failure = none ∧
    crisisFallback.gentle_suggestions = none ∧
    crisisFallback.resources = none ∧
    crisisFallback.check_in_frequency = none :=
  ⟨rfl, rfl, rfl, rfl⟩

/-- Claim C4 (amended): for every crisis-check call whose context builds
without a raised TypeError and whose response body is not parseable as JSON,
an enabled gateway returns the deterministic default payload with risk_level
none, an empty concerning-pattern list and a fixed supportive message — a
partial payload carrying only those three of the six enumerated schema
fields — and no exception reaches the caller; a transport error likewise
raises nothing but resolves to a bare None rather than a default payload; a
raised context TypeError is caught to a bare None for every outcome; and a
disabled gateway returns None. -/
theorem C4_crisis_fallback (svc : OpenAIService) (entries : List Entry)
    (body ctx msg : String) :
    (build_crisis_context (if 5 ≤ entries.length then lastN 5 entries else entries) =
        Except.ok ctx →
      detect_crisis_patterns svc entries (JsonOutcome.success body none) =
        (if svc.enabled = false then none else some crisisFallback)) ∧
    detect_crisis_patterns svc entries JsonOutcome.failure = none ∧
    (build_crisis_context (if 5 ≤ entries.length then lastN 5 entries else entries) =
        Except.error msg →
      ∀ call, detect_crisis_patterns svc entries call = none) ∧
    crisisFallback.risk_level = some "none" ∧
    crisisFallback.concerning_patterns = some ([] : List String) ∧
    crisisFallback.supportive_message =
      some "You\x27re doing great by tracking your health." := by
  refine ⟨?_, ?_, ?_, rfl, rfl, rfl⟩
  · intro hctx
    cases h : svc.enabled <;> simp [detect_crisis_patterns, h, hctx]
  · cases h : svc.enabled
    · simp [detect_crisis_patterns, h]
    · cases hc : build_crisis_context
        (if 5 ≤ entries.length then lastN 5 entries else entries) <;>
        simp [detect_crisis_patterns, h, hc]
  · intro herr call
    cases h : svc.enabled <;> simp [detect_crisis_patterns, h, herr]

/-- Claim C4 witness: an enabled gateway over an empty window — where the
context builds — given an unparsable body produces the default payload. -/
theorem C4_witness :
    detect_crisis_patterns enabledService [] (JsonOutcome.success "not json" none) =
      some crisisFallback := by
  have h := (C4_crisis_fallback enabledService [] "not json"
    "No recent entries available for analysis." "TypeError").1 rfl
  simpa using h

/-- Claim C7: when no service credential is configured, the gateway is
constructed in an explicit disabled mode — the inspectable enabled flag is
false — and every artifact-generation call (entry summary, insights, weekly
reflection, predictive insights, coping strategies, crisis check, weekly
coaching) returns None for every call outcome, while a configured credential
sets the flag true. -/
theorem C7_disabled_gateway :
    (initService none).enabled = false ∧
    (∀ k : String, (initService (some k)).enabled = true) ∧
    (∀ e call, generate_entry_summary (initService none) e call = none) ∧
    (∀ e call, generate_insights_and_encouragement (initService none) e call = none) ∧
    (∀ es call, generate_weekly_reflection (initService none) es call = none) ∧
    (∀ es call, generate_predictive_insights (initService none) es call = none) ∧
    (∀ sym es call, generate_coping_strategies (initService none) sym es call = none) ∧
    (∀ es call, detect_crisis_patterns (initService none) es call = none) ∧
    (∀ es goals call, generate_weekly_coaching (initService none) es goals call = none) :=
  ⟨rfl, fun _ => rfl, fun _ _ => rfl, fun _ _ => rfl, fun _ _ => rfl,
   fun _ _ => rfl, fun _ _ _ => rfl, fun _ _ => rfl, fun _ _ _ => rfl⟩

/-- The rational threshold comparison of the detector agrees with the exact
integer statement that ten times the count strictly exceeds the numerator
times the entry total. -/
theorem frac_gt_iff (a c n : ℕ) :
    ((c : Rat) > (n : Rat) * ((a : Rat) / 10)) ↔ a * n < 10 * c := by
  have h1 : ((a * n : ℕ) : Rat) < ((10 * c : ℕ) : Rat) ↔ a * n < 10 * c := Nat.cast_lt
  rw [← h1]
  push_cast
  constructor <;> intro h <;> nlinarith

/-- The count of a raising comprehension is a success exactly when every
per-entry test is. -/
theorem countMatches_isOk (test : Entry → Except String Bool) (es : List Entry) :
    (countMatches test es).isOk = true ↔ ∀ e ∈ es, (test e).isOk = true := by
  induction es with
  | nil => simp [countMatches, Except.isOk, Except.toBool]
  | cons e es ih =>
    simp only [List.mem_cons, forall_eq_or_imp]
    cases hte : test e with
    | error msg =>
      simp [countMatches, hte, Except.isOk, Except.toBool, Except.bind, Except.map, Bind.bind, Functor.map]
    | ok b =>
      cases hrec : countMatches test es with
      | error m2 =>
        simp only [hrec, Except.isOk, Except.toBool] at ih
        simp [countMatches, hte, hrec, Except.isOk, Except.toBool, Except.bind, Except.map, Bind.bind, Functor.map, pure, Pure.pure, Except.pure, ← ih]
      | ok n =>
        simp only [hrec, Except.isOk, Except.toBool] at ih
        simp [countMatches, hte, hrec, Except.isOk, Except.toBool, Except.bind, Except.map, Bind.bind, Functor.map, pure, Pure.pure, Except.pure, ← ih]

/-- A metric comparison succeeds exactly on a present value. -/
theorem pyGe_isOk (v : Option Int) (b : Int) : (pyGe v b).isOk = true ↔ v ≠ none := by
  cases v <;> simp [pyGe, Except.isOk, Except.toBool]

/-- A metric comparison succeeds exactly on a present value. -/
theorem pyLe_isOk (v : Option Int) (b : Int) : (pyLe v b).isOk = true ↔ v ≠ none := by
  cases v <;> simp [pyLe, Except.isOk, Except.toBool]

/-- The detector returns a flag list exactly when every compared metric of
every entry is present; otherwise the comparison of a None raises. -/
theorem identify_isOk_iff (entries : List Entry) :
    (identify_medical_patterns entries).isOk = true ↔
      ∀ e ∈ entries, e.pain_level ≠ none ∧ e.energy_level ≠ none ∧
        e.anxiety_level ≠ none := by
  have hp := countMatches_isOk (fun e => pyGe e.pain_level 7) entries
  have hle := countMatches_isOk (fun e => pyLe e.energy_level 3) entries
  have hha := countMatches_isOk (fun e => pyGe e.anxiety_level 7) entries
  constructor
  · intro hok e he
    cases hc1 : high_pain_count entries with
    | error m => simp [identify_medical_patterns, hc1, Except.bind, Except.isOk, Except.toBool, Bind.bind] at hok
    | ok a =>
      cases hc2 : low_energy_count entries with
      | error m =>
        simp [identify_medical_patterns, hc1, hc2, Except.bind, Except.isOk, Except.toBool, Bind.bind] at hok
      | ok b2 =>
        cases hc3 : high_anxiety_count entries with
        | error m =>
          simp [identify_medical_patterns, hc1, hc2, hc3, Except.bind, Except.isOk, Except.toBool, Bind.bind] at hok
        | ok c2 =>
          have hok1 : (countMatches (fun e => pyGe e.pain_level 7) entries).isOk = true := by
            have hc1b : countMatches (fun e => pyGe e.pain_level 7) entries =
                Except.ok a := hc1
            rw [hc1b]; rfl
          have hok2 : (countMatches (fun e => pyLe e.energy_level 3) entries).isOk = true := by
            have hc2b : countMatches (fun e => pyLe e.energy_level 3) entries =
                Except.ok b2 := hc2
            rw [hc2b]; rfl
          have hok3 : (countMatches (fun e => pyGe e.anxiety_level 7) entries).isOk = true := by
            have hc3b : countMatches (fun e => pyGe e.anxiety_level 7) entries =
                Except.ok c2 := hc3
            rw [hc3b]; rfl
          exact ⟨(pyGe_isOk _ _).mp (hp.mp hok1 e he),
            (pyLe_isOk _ _).mp (hle.mp hok2 e he),
            (pyGe_isOk _ _).mp (hha.mp hok3 e he)⟩
  · intro hall
    have h1 : (high_pain_count entries).isOk = true :=
      hp.mpr (fun e he => (pyGe_isOk _ _).mpr (hall e he).1)
    have h2 : (low_energy_count entries).isOk = true :=
      hle.mpr (fun e he => (pyLe_isOk _ _).mpr (hall e he).2.1)
    have h3 : (high_anxiety_count entries).isOk = true :=
      hha.mpr (fun e he => (pyGe_isOk _ _).mpr (hall e he).2.2)
    cases hc1 : high_pain_count entries with
    | error m => rw [hc1] at h1; simp [Except.isOk, Except.toBool] at h1
    | ok a =>
      cases hc2 : low_energy_count entries with
      | error m => rw [hc2] at h2; simp [Except.isOk, Except.toBool] at h2
      | ok b2 =>
        cases hc3 : high_anxiety_count entries with
        | error m => rw [hc3] at h3; simp [Except.isOk, Except.toBool] at h3
        | ok c2 =>
          simp [identify_medical_patterns, hc1, hc2, hc3, Except.bind, Except.isOk, Except.toBool, Bind.bind, pure, Pure.pure, Except.pure]

/-- Whatever the counts, the flag-list construction never yields the empty
list. -/
theorem identify_from_counts_ne_nil (hp ps le ha n : Nat) :
    identify_from_counts hp ps le ha n ≠ [] := by
  unfold identify_from_counts
  set patterns :=
    (if (hp : Rat) > (n : Rat) * (3 / 10) then [pain_flag hp n] else []) ++
    (if (ps : Rat) > (n : Rat) * (4 / 10) then [sleep_flag ps n] else []) ++
    (if (le : Rat) > (n : Rat) * (3 / 10) then [energy_flag le n] else []) ++
    (if (ha : Rat) > (n : Rat) * (3 / 10) then [anxiety_flag ha n] else []) with hpat
  by_cases h : patterns.isEmpty = true
  · simp [h]
  · simp only [if_neg h]
    intro hc
    exact h (by simp [hc])

/-- Entry reporting pain 8 with every compared metric present,
instantiating claim C5. -/
def presentHighPainEntry : Entry :=
  { entry_type := "morning"
    date := "2024-01-01"
    pain_level := some 8
    energy_level := some 5
    anxiety_level := some 1
    sleep_quality := some "good" }

/-- Entry reporting pain 1 with every compared metric present,
instantiating claim C5. -/
def presentCalmEntry : Entry :=
  { presentHighPainEntry with pain_level := some 1 }

/-- Ten-entry list of which four report pain 8 and six report pain 1, every
compared metric present on every entry. -/
def tenEntriesFourHighPain : List Entry :=
  List.replicate 4 presentHighPainEntry ++ List.replicate 6 presentCalmEntry

/-- Ten-entry list of which exactly three report pain 8, every compared
metric present on every entry. -/
def tenEntriesThreeHighPain : List Entry :=
  List.replicate 3 presentHighPainEntry ++ List.replicate 7 presentCalmEntry

/-- Single entry whose pain is reported high but whose energy value is
absent (NULL), instantiating the raising path of the detector. -/
def highPainNoEnergyEntry : Entry :=
  { entry_type := "morning"
    date := "2024-01-01"
    pain_level := some 8
    anxiety_level := some 1 }

/-- Claim C5 counterexample: a collection whose high-pain count strictly
exceeds the threshold fraction (one of one entries, 100 percent) but whose
energy value is absent makes the detector raise TypeError — the callers pass
every metric key with value None for a NULL column, so the dict-get default
never applies — and no flag is included at all. -/
theorem C5_counterexample :
    high_pain_count [highPainNoEnergyEntry] = Except.ok 1 ∧
    3 * [highPainNoEnergyEntry].length < 10 * 1 ∧
    identify_medical_patterns [highPainNoEnergyEntry] = Except.error "TypeError" :=
  ⟨rfl, by norm_num, rfl⟩

/-- Claim C5 (amended): on every entry collection whose pain, energy and
anxiety values are all present, each rule fires exactly when its count
strictly exceeds the configured fraction of the entry total — the rational
guard is equivalent to the exact strict inequality, and a firing pain rule
puts its flag into the flag list — so ten entries of which four have pain at
least 7 (40 percent, above the 30 percent threshold) yield exactly the
high-pain flag and ten entries of which exactly three match (30 percent, not
strictly greater) yield only the no-pattern marker; a collection in which
some entry has a None pain, energy or anxiety value instead raises
TypeError, so the flag list exists exactly when those metrics are present
throughout. -/
theorem C5_pattern_thresholds (entries : List Entry) (hp ps le ha c n : Nat) :
    (((c : Rat) > (n : Rat) * (3 / 10)) ↔ 3 * n < 10 * c) ∧
    (((c : Rat) > (n : Rat) * (4 / 10)) ↔ 4 * n < 10 * c) ∧
    ((identify_medical_patterns entries).isOk = true ↔
      ∀ e ∈ entries, e.pain_level ≠ none ∧ e.energy_level ≠ none ∧
        e.anxiety_level ≠ none) ∧
    (high_pain_count entries = Except.ok hp → low_energy_count entries = Except.ok le →
      high_anxiety_count entries = Except.ok ha →
      identify_medical_patterns entries =
        Except.ok (identify_from_counts hp (poor_sleep_count entries) le ha
          entries.length)) ∧
    (3 * n < 10 * hp → pain_flag hp n ∈ identify_from_counts hp ps le ha n) ∧
    identify_medical_patterns tenEntriesFourHighPain = Except.ok [pain_flag 4 10] ∧
    pain_flag 4 10 = "Frequent high pain levels (7+/10) in 4 of 10 entries" ∧
    identify_medical_patterns tenEntriesThreeHighPain = Except.ok [noPatternMarker] := by
  have hiff3 := frac_gt_iff 3 c n
  have hiff4 := frac_gt_iff 4 c n
  refine ⟨by simpa using hiff3, by simpa using hiff4, identify_isOk_iff entries,
    ?_, ?_, ?_, rfl, ?_⟩
  · intro h1 h2 h3
    simp [identify_medical_patterns, h1, h2, h3, Except.bind, Bind.bind, pure, Pure.pure, Except.pure]
  · intro hf
    have hc : (hp : Rat) > (n : Rat) * (3 / 10) := by
      have := (frac_gt_iff 3 hp n).mpr hf
      simpa using this
    unfold identify_from_counts
    rw [if_pos hc]
    have hne : pain_flag hp n ∈
        [pain_flag hp n] ++
          ((if (ps : Rat) > (n : Rat) * (4 / 10) then [sleep_flag ps n] else []) ++
            ((if (le : Rat) > (n : Rat) * (3 / 10) then [energy_flag le n] else []) ++
              (if (ha : Rat) > (n : Rat) * (3 / 10) then [anxiety_flag ha n] else []))) := by
      simp
    simp only [List.append_assoc] at *
    rw [if_neg (by simp [List.isEmpty])]
    · simp only [List.cons_append] at hne ⊢
      exact hne
  · have heq : identify_medical_patterns tenEntriesFourHighPain =
        Except.ok (identify_from_counts 4 0 0 0 10) := rfl
    have c1 : ((4 : ℕ) : Rat) > ((10 : ℕ) : Rat) * (3 / 10) := by norm_num
    have c2 : ¬(((0 : ℕ) : Rat) > ((10 : ℕ) : Rat) * (4 / 10)) := by norm_num
    have c3 : ¬(((0 : ℕ) : Rat) > ((10 : ℕ) : Rat) * (3 / 10)) := by norm_num
    rw [heq]
    unfold identify_from_counts
    rw [if_pos c1, if_neg c2, if_neg c3, if_neg c3]
    rfl
  · have heq : identify_medical_patterns tenEntriesThreeHighPain =
        Except.ok (identify_from_counts 3 0 0 0 10) := rfl
    have c1 : ¬(((3 : ℕ) : Rat) > ((10 : ℕ) : Rat) * (3 / 10)) := by norm_num
    have c2 : ¬(((0 : ℕ) : Rat) > ((10 : ℕ) : Rat) * (4 / 10)) := by norm_num
    have c3 : ¬(((0 : ℕ) : Rat) > ((10 : ℕ) : Rat) * (3 / 10)) := by norm_num
    rw [heq]
    unfold identify_from_counts
    rw [if_neg c1, if_neg c2, if_neg c3, if_neg c3]
    rfl

/-- Claim C5 witness: a firing pain rule, four of ten, puts its flag into the
constructed flag list. -/
theorem C5_witness :
    pain_flag 4 10 ∈ identify_from_counts 4 0 0 0 10 :=
  (C5_pattern_thresholds [] 4 0 0 0 4 10).2.2.2.2.1 (by norm_num)

/-- Entry with every metric absent, instantiating the raising path of
claim C6. -/
def noMetricsEntry : Entry :=
  { entry_type := "morning", date := "2024-01-01" }

/-- Claim C6 counterexample: on a one-entry collection with no metric values
— where no rule fires — the detector raises TypeError instead of returning
the single no-pattern marker. -/
theorem C6_counterexample :
    identify_medical_patterns [noMetricsEntry] = Except.error "TypeError" ∧
    (Except.error "TypeError" : Except String (List String)) ≠
      Except.ok [noPatternMarker] :=
  ⟨rfl, fun h => Except.noConfusion h⟩

/-- Claim C6 (amended): on every entry collection the detector checks without
a raised TypeError — every pain, energy and anxiety value present — and on
which no rule fires, it returns the list holding exactly the single explicit
no-pattern marker; and its successful result is never the empty list, so a
caller can distinguish checked-and-found-nothing from not-checked; a
collection carrying a None compared metric raises instead of returning the
marker. -/
theorem C6_no_pattern_marker (entries : List Entry) (hp le ha : Nat)
    (h : no_rule_fires entries hp le ha) :
    identify_medical_patterns entries = Except.ok [noPatternMarker] ∧
    (∀ es : List Entry,
      identify_medical_patterns es ≠ Except.ok ([] : List String)) := by
  obtain ⟨h1, h2, h3, h4, h5, h6, h7⟩ := h
  constructor
  · have heq : identify_medical_patterns entries =
        Except.ok (identify_from_counts hp (poor_sleep_count entries) le ha
          entries.length) := by
      simp [identify_medical_patterns, h1, h2, h3, Except.bind, Bind.bind, pure, Pure.pure, Except.pure]
    rw [heq]
    unfold identify_from_counts
    rw [if_neg h4, if_neg h5, if_neg h6, if_neg h7]
    rfl
  · intro es
    cases hc1 : high_pain_count es with
    | error m => simp [identify_medical_patterns, hc1, Except.bind, Bind.bind, Except.map, Functor.map]
    | ok a =>
      cases hc2 : low_energy_count es with
      | error m => simp [identify_medical_patterns, hc1, hc2, Except.bind, Bind.bind, Except.map, Functor.map]
      | ok b2 =>
        cases hc3 : high_anxiety_count es with
        | error m => simp [identify_medical_patterns, hc1, hc2, hc3, Except.bind, Bind.bind, pure, Pure.pure, Except.pure]
        | ok c2 =>
          have heq : identify_medical_patterns es =
              Except.ok (identify_from_counts a (poor_sleep_count es) b2 c2
                es.length) := by
            simp [identify_medical_patterns, hc1, hc2, hc3, Except.bind, Bind.bind, pure, Pure.pure, Except.pure]
          rw [heq]
          simp only [ne_eq, Except.ok.injEq]
          exact identify_from_counts_ne_nil a (poor_sleep_count es) b2 c2 es.length

/-- Claim C6 witness: the detector on the three-of-ten list, where every
compared metric is present and no rule fires, answers with the single
marker. -/
theorem C6_witness :
    identify_medical_patterns tenEntriesThreeHighPain = Except.ok [noPatternMarker] :=
  (C6_no_pattern_marker tenEntriesThreeHighPain 3 0 0 (by
    have hl : tenEntriesThreeHighPain.length = 10 := rfl
    have hsl : poor_sleep_count tenEntriesThreeHighPain = 0 := rfl
    refine ⟨rfl, rfl, rfl, ?_, ?_, ?_, ?_⟩
    · rw [hl]; norm_num
    · rw [hsl, hl]; norm_num
    · rw [hl]; norm_num
    · rw [hl]; norm_num)).1

/-- The guarded mean is the None marker exactly on an empty value list. -/
theorem avgOrNone_eq_none_iff (vals : List Int) : avgOrNone vals = none ↔ vals = [] := by
  cases vals <;> simp [avgOrNone]

/-- Morning entry of the shared chart day, reporting mood 4. -/
def c8MorningEntry : Entry :=
  { entry_type := "morning", date := "2024-01-01", timestamp := 1, mood_overall := some 4 }

/-- Evening entry of the shared chart day, reporting mood 8. -/
def c8EveningEntry : Entry :=
  { entry_type := "evening", date := "2024-01-01", timestamp := 2, mood_overall := some 8 }

/-- Entry on the following day with no mood value, giving that day zero
present samples. -/
def c8GapEntry : Entry :=
  { entry_type := "morning", date := "2024-01-02", timestamp := 3, mood_overall := none }

/-- Claim C8: for every day in the chart window, the daily aggregate of a
metric is the mean of the present values of that day — a day holding the
entries mood 4 and mood 8 yields the daily average 6 — and a day with zero
present values for the metric yields the explicit no-data marker None, never
0, at its position in the date-ordered sequence of daily averages. -/
theorem C8_daily_aggregation (metric : Entry → Option Int) (entries : List Entry) (d : String) :
    avgOrNone (day_values metric entries d) = spec_average (day_values metric entries d) ∧
    (avgOrNone (day_values metric entries d) = none ↔ day_values metric entries d = []) ∧
    chart_labels [c8MorningEntry, c8EveningEntry, c8GapEntry] =
      ["2024-01-01", "2024-01-02"] ∧
    chart_series Entry.mood_overall [c8MorningEntry, c8EveningEntry, c8GapEntry] =
      [some 6, none] := by
  have hlab : chart_labels [c8MorningEntry, c8EveningEntry, c8GapEntry] =
      ["2024-01-01", "2024-01-02"] := by decide
  have hv1 : day_values Entry.mood_overall [c8MorningEntry, c8EveningEntry, c8GapEntry]
      "2024-01-01" = [4, 8] := by decide
  have hv2 : day_values Entry.mood_overall [c8MorningEntry, c8EveningEntry, c8GapEntry]
      "2024-01-02" = [] := by decide
  refine ⟨avgOrNone_eq_spec_average _, avgOrNone_eq_none_iff _, hlab, ?_⟩
  unfold chart_series
  rw [hlab]
  simp only [List.map_cons, List.map_nil, hv1, hv2]
  norm_num [avgOrNone]

/-- Two contradictory date bounds filter every entry away, whatever list they
are applied to. -/
theorem filter_window_empty (l : List Entry) (date_from date_to : String)
    (h : strLe date_from date_to = false) :
    (l.filter (fun e => strLe date_from e.date)).filter
      (fun e => strLe e.date date_to) = [] := by
  rw [List.filter_eq_nil_iff]
  intro e he
  have h1 : strLe date_from e.date = true := (List.mem_filter.mp he).2
  intro hle
  exact absurd (strLe_trans date_from e.date date_to h1 hle) (by rw [h]; simp)

/-- Entry whose date lies between the two inverted bounds of the
claim C9 instance. -/
def invertedWindowEntry : Entry :=
  { entry_type := "morning", date := "2024-01-05", timestamp := 1 }

/-- Claim C9 counterexample: a listing request whose end date precedes its
start date is answered with a plain success carrying the empty list — both
bounds are applied as filters — not with the distinct error signal the claim
requires. -/
theorem C9_counterexample :
    get_entries [invertedWindowEntry] 0 100 none (some "2024-01-10") (some "2024-01-01") =
      Except.ok [] ∧
    (get_entries [invertedWindowEntry] 0 100 none
      (some "2024-01-10") (some "2024-01-01")).isOk = true :=
  ⟨rfl, rfl⟩

/-- Claim C9 (amended): the listing endpoint never validates the window: for
every database state, paging and type filter, a request whose end date
strictly precedes its start date (the start is not at or before the end)
succeeds and returns the empty entry list — each bound is applied as an
independent filter and the two together match nothing — instead of surfacing
a distinct error signal. -/
theorem C9_inverted_window_silent (db : List Entry) (skip limit : Nat)
    (entry_type : Option String) (date_from date_to : String)
    (h : strLe date_from date_to = false) :
    get_entries db skip limit entry_type (some date_from) (some date_to) =
      Except.ok [] := by
  cases entry_type with
  | none =>
    show Except.ok (((order_by_timestamp_desc
        ((db.filter (fun e => strLe date_from e.date)).filter
          (fun e => strLe e.date date_to))).drop skip).take limit) = Except.ok []
    rw [filter_window_empty db date_from date_to h]
    simp [order_by_timestamp_desc]
  | some t =>
    show Except.ok (((order_by_timestamp_desc
        (((db.filter (fun e => decide (e.entry_type = t))).filter
            (fun e => strLe date_from e.date)).filter
          (fun e => strLe e.date date_to))).drop skip).take limit) = Except.ok []
    rw [filter_window_empty (db.filter (fun e => decide (e.entry_type = t)))
      date_from date_to h]
    simp [order_by_timestamp_desc]

/-- Claim C9 witness: the inverted window instance, through the amended
statement. -/
theorem C9_witness :
    get_entries [invertedWindowEntry] 0 100 none (some "2024-01-10") (some "2024-01-01") =
      Except.ok [] :=
  C9_inverted_window_silent [invertedWindowEntry] 0 100 none
    "2024-01-10" "2024-01-01" (by rfl)

/-- Claim C10: in the entries summary endpoint, whenever every present value
of a metric over the ten most recent entries is 0 — for example pain reported
as 0 throughout — the reported recent average for that metric is None rather
than 0.0, because the truthiness guard of the reporting expression treats an
average of exactly zero like missing data. -/
theorem C10_zero_average_reported_none (db : List Entry)
    (h : ∀ v ∈ present_values Entry.pain_level (recent_entries_of db), v = 0) :
    (get_entries_summary db).recent_averages.pain = none := by
  have hpz : (get_entries_summary db).recent_averages.pain =
      reported_average (avgOrNone (present_values Entry.pain_level (recent_entries_of db))) :=
    rfl
  rw [hpz]
  cases hv : present_values Entry.pain_level (recent_entries_of db) with
  | nil => simp [avgOrNone, reported_average]
  | cons a l =>
    have hsum : ((a :: l).map (fun v : Int => (v : Rat))).sum = 0 := by
      apply List.sum_eq_zero
      intro x hx
      simp only [List.mem_map] at hx
      obtain ⟨v, hv2, rfl⟩ := hx
      have hz := h v (by rw [hv]; exact hv2)
      simp [hz]
    have hx : avgOrNone (a :: l) = some 0 := by
      simp only [avgOrNone, List.isEmpty_cons, Bool.false_eq_true, if_false, hsum, zero_div]
    rw [hx]
    simp [reported_average]

/-- Entry reporting pain 0, instantiating claim C10. -/
def zeroPainEntry : Entry :=
  { entry_type := "evening", date := "2024-03-01", timestamp := 5, pain_level := some 0 }

/-- Claim C10 witness: a database whose only entry reports pain 0 makes the
summary endpoint report the recent pain average as None. -/
theorem C10_witness :
    (get_entries_summary [zeroPainEntry]).recent_averages.pain = none :=
  C10_zero_average_reported_none [zeroPainEntry] (by decide)

end Chroni
